import Mathlib

/-!
Verification of the fraud-data generator (`Data_Simulation/data_generate.py`).

The Python source is shallowly embedded: every call to the global random
stream (`random.random`, `random.randint`, `random.choice`, `random.choices`,
`random.uniform`) and every Faker draw (uuids, city/state strings, ip
strings, timestamps) becomes an explicit input.  Floats are modelled as
rationals, Python ints as `Int`/`Nat`, and the fallible
`random.choice(users)` (which raises on an empty list) returns `Option`.
-/

namespace FraudGen

/-- The fixed merchant catalog `MERCHANTS` from the source. -/
def MERCHANTS : List (String × String) := [
  ("amazon", "online"), ("walmart", "retail"), ("mcdonalds", "restaurant"),
  ("shell", "gas"), ("starbucks", "restaurant"), ("target", "retail"),
  ("uber", "transport"), ("netflix", "subscription"), ("paypal", "financial"),
  ("apple", "online"), ("google", "online"), ("microsoft", "online")]

/-- The fixed country list `COUNTRIES` from the source. -/
def COUNTRIES : List String :=
  ["US", "GB", "DE", "FR", "CA", "IN", "BR", "ZA", "NG", "CN", "RU"]

/-- `random.choice(l)` with an abstract draw `i`: uniform over the indices of
`l`; on an empty list it fails (Python raises `IndexError`). -/
def pyChoice (l : List α) (i : Nat) : Option α := l.get? (i % l.length)

/-- `random.choice` on a list that is statically known to be nonempty
(the merchant catalog, device types, countries); the default is never hit. -/
def pyChoiceD (l : List α) (d : α) (i : Nat) : α := (pyChoice l i).getD d

/-- `random.randint(a, b)` with an abstract draw `x`: uniform over the
`b - a + 1` values of `[a, b]`. -/
def pyRandint (a b : Int) (x : Nat) : Int := a + (x % (b - a + 1).toNat : Nat)

/-- `random.uniform(a, b)` with an abstract draw `t ∈ [0, 1)`:
`a + (b - a) * t`. -/
def uniformDraw (a b t : ℚ) : ℚ := a + (b - a) * t

/-- Python `round` to an integer, half-to-even (banker's rounding). -/
def roundHalfEven (q : ℚ) : ℤ :=
  let f := ⌊q⌋
  let r := q - f
  if r < 1/2 then f
  else if 1/2 < r then f + 1
  else if f % 2 = 0 then f else f + 1

/-- Python `round(x, 2)`: round to two decimal places. -/
def round2 (q : ℚ) : ℚ := ((roundHalfEven (q * 100) : ℤ) : ℚ) / 100

/-- Python `s.startswith(p)` on explicit character lists. -/
def listStarts : List Char → List Char → Bool
  | _, [] => true
  | [], _ :: _ => false
  | c :: s, p :: ps => (c == p) && listStarts s ps

/-- Python `s.startswith(p)` on strings. -/
def pyStartswith (s p : String) : Bool := listStarts s.data p.data

/-- `ip_address.startswith(('10.', '192.', '172.'))` from the source. -/
def is_private_ip (ip : String) : Bool :=
  pyStartswith ip ("10.") || pyStartswith ip ("192.") || pyStartswith ip ("172.")

/-- The source's hour draw:
`random.randint(8, 22) if random.random() < 0.7 else random.randint(0, 23)`. -/
def computeHour (gate : ℚ) (dayDraw anyDraw : Nat) : Nat :=
  if gate < 7/10 then 8 + dayDraw % 15 else anyDraw % 24

/-- The `amount_ranges` dict lookup with default `(10, 200)`
(`amount_ranges.get(merchant_category, (10, 200))`). -/
def amountRange (category : String) : ℚ × ℚ :=
  if category = "restaurant" then (5, 150)
  else if category = "retail" then (10, 500)
  else if category = "gas" then (20, 100)
  else if category = "online" then (15, 300)
  else if category = "transport" then (10, 80)
  else if category = "subscription" then (5, 50)
  else if category = "financial" then (50, 1000)
  else (10, 200)

/-- The source's amount computation: draw uniformly in the category range,
round to 2 decimals, and if the result exceeds 300 and a 0.7-probability
gate fires, redraw uniformly in `[min, 300]` and round again. -/
def computeAmount (category : String) (t1 gate t2 : ℚ) : ℚ :=
  let mn := (amountRange category).1
  let mx := (amountRange category).2
  let amount := round2 (uniformDraw mn mx t1)
  if 300 < amount ∧ gate < 7/10 then round2 (uniformDraw mn 300 t2) else amount

/-- `random.choices(['credit_card','debit_card','digital_wallet','bank_transfer'],
weights=[45,35,15,5])[0]` via the cumulative distribution of a draw `t ∈ [0,1)`. -/
def choosePayment (t : ℚ) : String :=
  if t < 45/100 then "credit_card"
  else if t < 80/100 then "debit_card"
  else if t < 95/100 then "digital_wallet"
  else "bank_transfer"

/-- `random.choices(['purchase','withdrawal','transfer','refund'],
weights=[75,15,8,2])[0]` via the cumulative distribution of a draw `t ∈ [0,1)`. -/
def chooseType (t : ℚ) : String :=
  if t < 75/100 then "purchase"
  else if t < 90/100 then "withdrawal"
  else if t < 98/100 then "transfer"
  else "refund"

/-- `random.choices(['completed','failed','pending'], weights=[92,6,2])[0]`
via the cumulative distribution of a draw `t ∈ [0,1)`. -/
def chooseStatus (t : ℚ) : String :=
  if t < 92/100 then "completed"
  else if t < 98/100 then "failed"
  else "pending"

/-- `random.randint(-5, 10)`: the additive noise term of the risk score. -/
def noiseDraw (x : Nat) : ℤ := -5 + (x % 16 : Nat)

/-- The source's sequential `fraud_score` accumulation (each `if c:
fraud_score += k` in order) followed by adding the noise term. -/
def fraudScore (amount : ℚ) (hour : Nat) (category payment status : String)
    (priv : Bool) (noise : ℤ) : ℤ :=
  let s : ℤ := 0
  let s := if 500 < amount then s + 30 else s
  let s := if 1000 < amount then s + 20 else s
  let s := if hour < 6 ∨ 23 < hour then s + 15 else s
  let s := if category = "online" then s + 10 else s
  let s := if payment = "digital_wallet" then s + 5 else s
  let s := if status = "failed" then s + 25 else s
  let s := if priv then s + 20 else s
  s + noise

/-- `risk_score = max(0, min(100, fraud_score))`. -/
def riskScore (amount : ℚ) (hour : Nat) (category payment status : String)
    (priv : Bool) (noise : ℤ) : ℤ :=
  max 0 (min 100 (fraudScore amount hour category payment status priv noise))

/-- Modelled from the spec (section 4.1, step 11): the risk score as the
clamp to `[0,100]` of one additive sum, each condition contributing
independently, plus the noise term.  Compared against the source's
sequential `fraudScore`/`riskScore` in claim C7. -/
def riskScoreSpec (amount : ℚ) (hour : Nat) (category payment status : String)
    (priv : Bool) (noise : ℤ) : ℤ :=
  max 0 (min 100 (
    (if 500 < amount then (30 : ℤ) else 0)
    + (if 1000 < amount then 20 else 0)
    + (if hour < 6 ∨ 23 < hour then 15 else 0)
    + (if category = "online" then 10 else 0)
    + (if payment = "digital_wallet" then 5 else 0)
    + (if status = "failed" then 25 else 0)
    + (if priv then 20 else 0)
    + noise))

/-- The `fraudScore` chain with the `amount > 1000` step removed; claim C10
states that on reachable amounts the source chain agrees with this one. -/
def fraudScoreLow (amount : ℚ) (hour : Nat) (category payment status : String)
    (priv : Bool) (noise : ℤ) : ℤ :=
  let s : ℤ := 0
  let s := if 500 < amount then s + 30 else s
  let s := if hour < 6 ∨ 23 < hour then s + 15 else s
  let s := if category = "online" then s + 10 else s
  let s := if payment = "digital_wallet" then s + 5 else s
  let s := if status = "failed" then s + 25 else s
  let s := if priv then s + 20 else s
  s + noise

/-- `is_fraud = risk_score > 70 and random.random() < 0.3`. -/
def isFraudFlag (risk : ℤ) (draw : ℚ) : Bool :=
  decide (70 < risk) && decide (draw < 3/10)

/-- Zero-pad a natural number to at least four digits (`f"{n:04d}"` for the
values `0 ≤ n < 10000` produced by the modulo). -/
def pad4 (n : Nat) : String :=
  let s := toString n
  String.mk (List.replicate (4 - s.length) '0') ++ s

/-- `device_id = f"device_{hash(user_id) % 10000:04d}"`.  Python's string
`hash` is process-salted, so it is a parameter, not a fixed function; `%` on
a positive divisor agrees with Lean's `Int.emod`. -/
def deviceId (pyHash : String → ℤ) (uid : String) : String :=
  "device_" ++ pad4 ((pyHash uid % 10000).toNat)

/-- Schematic rendering of
`fake.date_time_between(start_date='-2y', end_date='now').replace(hour=hour)`:
the drawn date (minute/second included) is an abstract string, the
overridden hour component is kept explicit. -/
def renderTimestamp (date : String) (hour : Nat) : String :=
  date ++ "@" ++ toString hour

/-- One generated transaction record: the fifteen dict keys of the source,
in order. -/
structure Record where
  transaction_id : String
  user_id : String
  transaction_timestamp : String
  transaction_amount : ℚ
  merchant_id : String
  merchant_category : String
  payment_method : String
  ip_address : String
  geolocation : String
  device_id : String
  device_type : String
  transaction_type : String
  transaction_status : String
  is_fraud : Bool
  risk_score : ℤ
deriving DecidableEq, Inhabited

/-- The random/Faker draws consumed by one loop iteration of
`generate_fraud_data_chunk`, in source order. -/
structure RecInput where
  userIdx : Nat
  merchantIdx : Nat
  deviceTypeIdx : Nat
  hourGate : ℚ
  hourDay : Nat
  hourAny : Nat
  tsDate : String
  amountT : ℚ
  recapGate : ℚ
  recapT : ℚ
  payT : ℚ
  countryIdx : Nat
  city : String
  stateAbbr : String
  ipGate : ℚ
  privIp : String
  pubIp : String
  typeT : ℚ
  statusT : ℚ
  noise : Nat
  fraudT : ℚ
  txnUuid : String
deriving Inhabited

/-- `fake.ipv4_private() if random.random() < 0.05 else fake.ipv4_public()`:
select the ip string for one record from its two Faker candidates. -/
def ipSelect (inp : RecInput) : String :=
  if inp.ipGate < 5/100 then inp.privIp else inp.pubIp

/-- The body of one loop iteration of `generate_fraud_data_chunk` after the
user has been chosen: every remaining field computation, in source order. -/
def recordOf (pyHash : String → ℤ) (user_id : String) (inp : RecInput) : Record :=
    let m := pyChoiceD MERCHANTS ("amazon", "online") inp.merchantIdx
    let merchant_name := m.1
    let merchant_category := m.2
    let device_type := pyChoiceD ["mobile", "desktop", "tablet"] ("mobile") inp.deviceTypeIdx
    let hour := computeHour inp.hourGate inp.hourDay inp.hourAny
    let amount := computeAmount merchant_category inp.amountT inp.recapGate inp.recapT
    let payment_method := choosePayment inp.payT
    let country := pyChoiceD COUNTRIES ("US") inp.countryIdx
    let location := inp.city ++ ", " ++ inp.stateAbbr ++ ", " ++ country
    let ip_address := ipSelect inp
    let priv := is_private_ip ip_address
    let device_id := deviceId pyHash user_id
    let transaction_type := chooseType inp.typeT
    let transaction_status := chooseStatus inp.statusT
    let noise := noiseDraw inp.noise
    let risk := riskScore amount hour merchant_category payment_method
      transaction_status priv noise
    {
      transaction_id := inp.txnUuid
      user_id := user_id
      transaction_timestamp := renderTimestamp inp.tsDate hour
      transaction_amount := amount
      merchant_id := "merchant_" ++ merchant_name
      merchant_category := merchant_category
      payment_method := payment_method
      ip_address := ip_address
      geolocation := location
      device_id := device_id
      device_type := device_type
      transaction_type := transaction_type
      transaction_status := transaction_status
      is_fraud := isFraudFlag risk inp.fraudT
      risk_score := risk }

/-- One iteration of the record loop in `generate_fraud_data_chunk`:
`user_id = random.choice(users)` fails (Python `IndexError`) exactly when
the user pool is empty; otherwise the iteration appends one record. -/
def makeRecord (pyHash : String → ℤ) (users : List String) (inp : RecInput) :
    Option Record :=
  match pyChoice users inp.userIdx with
  | none => none
  | some user_id => some (recordOf pyHash user_id inp)

/-- The record loop: build each record in order, failing the whole call at
the first failing iteration (Python propagates the exception). -/
def buildLoop (mk : RecInput → Option Record) : List RecInput → Option (List Record)
  | [] => some []
  | inp :: rest =>
    match mk inp with
    | none => none
    | some r =>
      match buildLoop mk rest with
      | none => none
      | some rs => some (r :: rs)

/-- `users = [fake.uuid4() for _ in range(num_records // 8)]`: the per-call
user pool.  `//` is Python floor division (`Int.fdiv`), and `range` of a
non-positive bound is empty (`Int.toNat`). -/
def userPool (uuidSupply : Nat → String) (count : ℤ) : List String :=
  (List.range (Int.fdiv count 8).toNat).map uuidSupply

/-- `generate_fraud_data_chunk(num_records)`: build the per-call user pool,
then run the record loop `num_records` times.  `some recs` models a returned
DataFrame with rows `recs`; `none` models a raised exception. -/
def generateChunk (pyHash : String → ℤ) (uuidSupply : Nat → String)
    (inputs : Nat → RecInput) (count : ℤ) : Option (List Record) :=
  let users := userPool uuidSupply count
  buildLoop (makeRecord pyHash users) ((List.range count.toNat).map inputs)

/-- The rows of a generated chunk (empty when the call fails). -/
def chunkRecords (pyHash : String → ℤ) (uuidSupply : Nat → String)
    (inputs : Nat → RecInput) (count : ℤ) : List Record :=
  (generateChunk pyHash uuidSupply inputs count).getD []

/-- The CSV header row `pandas.to_csv` writes: the fifteen dict keys in
insertion order. -/
def headerLine : String :=
  "transaction_id,user_id,transaction_timestamp,transaction_amount," ++
  "merchant_id,merchant_category,payment_method,ip_address,geolocation," ++
  "device_id,device_type,transaction_type,transaction_status,is_fraud,risk_score"

/-- Render a two-decimal amount (a multiple of 1/100) as decimal text. -/
def renderAmount (q : ℚ) : String :=
  let c := roundHalfEven (q * 100)
  let sign := if c < 0 then "-" else ""
  let n := c.natAbs
  let f := n % 100
  sign ++ toString (n / 100) ++ "." ++ (if f < 10 then "0" else "") ++ toString f

/-- One CSV data row: the fifteen field values, comma-separated, booleans in
Python's `True`/`False` form. -/
def csvLine (r : Record) : String :=
  String.intercalate "," [
    r.transaction_id, r.user_id, r.transaction_timestamp,
    renderAmount r.transaction_amount, r.merchant_id, r.merchant_category,
    r.payment_method, r.ip_address, r.geolocation, r.device_id,
    r.device_type, r.transaction_type, r.transaction_status,
    (if r.is_fraud then "True" else "False"), toString r.risk_score]

/-- The rows one `chunk_df.to_csv(..., mode='a', header=first_chunk)` call
appends: the header line exactly when `first` holds, then one line per record. -/
def batchLines (first : Bool) (recs : List Record) : List String :=
  (if first then [headerLine] else []) ++ recs.map csvLine

/-- `range(start, stop, step)` for a positive step, with structural fuel;
`fuel = stop` always suffices since each iteration advances by `step ≥ 1`. -/
def pyRangeAux : Nat → Nat → Nat → Nat → List Nat
  | 0, _, _, _ => []
  | fuel + 1, start, stop, step =>
    if 0 < step ∧ start < stop then start :: pyRangeAux fuel (start + step) stop step
    else []

/-- `range(start, stop, step)` as used by `stream_to_csv`. -/
def pyRange (start stop step : Nat) : List Nat := pyRangeAux stop start stop step

/-- The writer loop of `stream_to_csv`: for each batch start, generate
`min(chunk_size, total_records - i)` records with that batch's slice of the
random/Faker stream, append its lines, and thread the `first_chunk` flag. -/
def writeLoop (pyHash : String → ℤ) (supply : Nat → Nat → String)
    (inputs : Nat → Nat → RecInput) (total chunk : Nat) :
    List Nat → Nat → Bool → Option (List String)
  | [], _, _ => some []
  | start :: rest, bi, first =>
    match generateChunk pyHash (supply bi) (inputs bi)
        ((min chunk (total - start) : Nat) : ℤ) with
    | none => none
    | some recs =>
      match writeLoop pyHash supply inputs total chunk rest (bi + 1) false with
      | none => none
      | some tail => some (batchLines first recs ++ tail)

/-- All lines `stream_to_csv` appends to the destination file, batch by
batch (`none` when some chunk generation fails and aborts the stream). -/
def streamLines (pyHash : String → ℤ) (supply : Nat → Nat → String)
    (inputs : Nat → Nat → RecInput) (total chunk : Nat) : Option (List String) :=
  writeLoop pyHash supply inputs total chunk (pyRange 0 total chunk) 0 true

/-- A fixed hash function standing for one process's salted string hash. -/
def hash0 : String → ℤ := fun _ => 0

/-- A second process's salted string hash, differing from `hash0`. -/
def hash1 : String → ℤ := fun _ => 1

/-- A concrete uuid supply for witnesses. -/
def supply0 : Nat → String := fun _ => "u"

/-- A concrete per-batch uuid supply for witnesses. -/
def supply2 : Nat → Nat → String := fun _ _ => "u"

/-- A concrete draw bundle for witnesses: all gates and draws at zero. -/
def input0 : RecInput := {
  userIdx := 0, merchantIdx := 0, deviceTypeIdx := 0,
  hourGate := 0, hourDay := 0, hourAny := 0, tsDate := "d",
  amountT := 0, recapGate := 0, recapT := 0, payT := 0,
  countryIdx := 0, city := "c", stateAbbr := "s",
  ipGate := 0, privIp := "10.0.0.1", pubIp := "8.8.8.8",
  typeT := 0, statusT := 0, noise := 0, fraudT := 0, txnUuid := "t" }

/-- A draw bundle whose record has a high risk score and a fraud flag:
failed status, night hour, digital wallet, private ip, online merchant,
maximal noise, fraud gate firing. -/
def inputFraud : RecInput := {
  userIdx := 0, merchantIdx := 0, deviceTypeIdx := 0,
  hourGate := 1, hourDay := 0, hourAny := 0, tsDate := "d",
  amountT := 0, recapGate := 0, recapT := 0, payT := 85/100,
  countryIdx := 0, city := "c", stateAbbr := "s",
  ipGate := 0, privIp := "10.0.0.1", pubIp := "8.8.8.8",
  typeT := 0, statusT := 93/100, noise := 15, fraudT := 0, txnUuid := "t" }

/-- As `inputFraud` but the fraud gate does not fire: the risk score still
exceeds 70, yet the flag stays false. -/
def inputHighRiskNoFraud : RecInput := {
  userIdx := 0, merchantIdx := 0, deviceTypeIdx := 0,
  hourGate := 1, hourDay := 0, hourAny := 0, tsDate := "d",
  amountT := 0, recapGate := 0, recapT := 0, payT := 85/100,
  countryIdx := 0, city := "c", stateAbbr := "s",
  ipGate := 0, privIp := "10.0.0.1", pubIp := "8.8.8.8",
  typeT := 0, statusT := 93/100, noise := 15, fraudT := 1/2, txnUuid := "t" }

/-- A constant record-input stream for witnesses. -/
def inputs0 : Nat → RecInput := fun _ => input0

/-- A constant per-batch record-input stream for witnesses. -/
def inputs2 : Nat → Nat → RecInput := fun _ _ => input0

/-- A constant record-input stream whose records carry the fraud flag. -/
def inputsF : Nat → RecInput := fun _ => inputFraud

end FraudGen

set_option maxRecDepth 400000

namespace FraudGen

lemma pyChoice_mem {l : List α} {i : Nat} {x : α} (h : pyChoice l i = some x) :
    x ∈ l :=
  List.get?_mem h

lemma pyChoice_isSome {l : List α} (hl : l ≠ []) (i : Nat) :
    ∃ x, pyChoice l i = some x := by
  have hlen : 0 < l.length := List.length_pos.2 hl
  have hmod : i % l.length < l.length := Nat.mod_lt _ hlen
  exact ⟨l.get ⟨i % l.length, hmod⟩, List.get?_eq_get hmod⟩

lemma buildLoop_total (mk : RecInput → Option Record)
    (h : ∀ inp, ∃ r, mk inp = some r) (l : List RecInput) :
    ∃ rs, buildLoop mk l = some rs ∧ rs.length = l.length := by
  induction l with
  | nil => exact ⟨[], rfl, rfl⟩
  | cons a t ih =>
    obtain ⟨r, hr⟩ := h a
    obtain ⟨rs, hrs, hlen⟩ := ih
    exact ⟨r :: rs, by simp [buildLoop, hr, hrs], by simp [hlen]⟩

lemma buildLoop_mem (mk : RecInput → Option Record) (l : List RecInput) :
    ∀ rs, buildLoop mk l = some rs → ∀ r ∈ rs, ∃ inp ∈ l, mk inp = some r := by
  induction l with
  | nil =>
    intro rs h r hr
    simp only [buildLoop, Option.some.injEq] at h
    subst h
    simp at hr
  | cons a t ih =>
    intro rs h r hr
    simp only [buildLoop] at h
    cases hmk : mk a with
    | none => rw [hmk] at h; cases h
    | some r0 =>
      rw [hmk] at h
      cases hbl : buildLoop mk t with
      | none => rw [hbl] at h; cases h
      | some rs0 =>
        rw [hbl] at h
        simp only [Option.some.injEq] at h
        subst h
        rcases List.mem_cons.1 hr with h1 | h2
        · exact ⟨a, List.mem_cons_self _ _, by rw [hmk, h1]⟩
        · obtain ⟨inp, hi, hmi⟩ := ih rs0 hbl r h2
          exact ⟨inp, List.mem_cons_of_mem _ hi, hmi⟩

lemma makeRecord_total (pyHash : String → ℤ) {users : List String}
    (hu : users ≠ []) (inp : RecInput) :
    ∃ r, makeRecord pyHash users inp = some r := by
  obtain ⟨x, hx⟩ := pyChoice_isSome hu inp.userIdx
  exact ⟨recordOf pyHash x inp, by simp [makeRecord, hx]⟩

lemma makeRecord_empty (pyHash : String → ℤ) (inp : RecInput) :
    makeRecord pyHash [] inp = none := rfl

lemma userPool_length (supply : Nat → String) (count : ℤ) :
    (userPool supply count).length = (Int.fdiv count 8).toNat := by
  simp [userPool]

lemma fdiv_eight_pos {count : ℤ} (h : 8 ≤ count) : 1 ≤ Int.fdiv count 8 := by
  rw [Int.fdiv_eq_ediv _ (by norm_num)]
  omega

lemma userPool_ne_empty {count : ℤ} (h : 8 ≤ count) (supply : Nat → String) :
    userPool supply count ≠ [] := by
  have h1 := fdiv_eight_pos h
  have h2 : (userPool supply count).length ≠ 0 := by
    rw [userPool_length]; omega
  exact fun he => h2 (by rw [he]; rfl)

lemma generateChunk_nonpos (pyHash : String → ℤ) (supply : Nat → String)
    (inputs : Nat → RecInput) {count : ℤ} (h : count ≤ 0) :
    generateChunk pyHash supply inputs count = some [] := by
  have ht : count.toNat = 0 := Int.toNat_of_nonpos h
  simp [generateChunk, ht, buildLoop]

lemma generateChunk_small (pyHash : String → ℤ) (supply : Nat → String)
    (inputs : Nat → RecInput) {count : ℤ} (h1 : 1 ≤ count) (h7 : count ≤ 7) :
    generateChunk pyHash supply inputs count = none := by
  have hfd : Int.fdiv count 8 = 0 := by
    rw [Int.fdiv_eq_ediv _ (by norm_num)]; omega
  have hpool : userPool supply count = [] := by simp [userPool, hfd]
  obtain ⟨n, hn⟩ : ∃ n, count.toNat = n + 1 := ⟨count.toNat - 1, by omega⟩
  rw [generateChunk, hpool, hn, List.range_succ_eq_map]
  simp [buildLoop, makeRecord_empty]

lemma generateChunk_big (pyHash : String → ℤ) (supply : Nat → String)
    (inputs : Nat → RecInput) {count : ℤ} (h : 8 ≤ count) :
    ∃ recs, generateChunk pyHash supply inputs count = some recs ∧
      recs.length = count.toNat := by
  have hpool := userPool_ne_empty h supply
  obtain ⟨recs, hr, hl⟩ := buildLoop_total _
    (fun inp => makeRecord_total pyHash hpool inp)
    ((List.range count.toNat).map inputs)
  exact ⟨recs, hr, by simpa using hl⟩

lemma chunkRecords_mem (pyHash : String → ℤ) (supply : Nat → String)
    (inputs : Nat → RecInput) (count : ℤ) {r : Record}
    (h : r ∈ chunkRecords pyHash supply inputs count) :
    ∃ inp, makeRecord pyHash (userPool supply count) inp = some r := by
  unfold chunkRecords at h
  cases hg : generateChunk pyHash supply inputs count with
  | none => rw [hg] at h; simp at h
  | some recs =>
    rw [hg] at h
    simp only [Option.getD_some] at h
    obtain ⟨inp, _, hmk⟩ := buildLoop_mem _ _ recs hg r h
    exact ⟨inp, hmk⟩

lemma makeRecord_user_mem {pyHash : String → ℤ} {users : List String}
    {inp : RecInput} {r : Record} (h : makeRecord pyHash users inp = some r) :
    r.user_id ∈ users := by
  unfold makeRecord at h
  cases hc : pyChoice users inp.userIdx with
  | none => rw [hc] at h; cases h
  | some uid =>
    rw [hc] at h
    have hr : r = recordOf pyHash uid inp := (Option.some.inj h).symm
    have huid : r.user_id = uid := by rw [hr]; rfl
    rw [huid]
    exact pyChoice_mem hc

/-- C1: the claim states every count `N ≥ 1` yields exactly `N` records
without error; on the code this holds only from `N = 8` on, because the
user pool `num_records // 8` is empty for `1 ≤ N ≤ 7` and `random.choice`
then raises.  Amended: counts `≥ 8` return exactly `count` records, counts
`1..7` raise instead. -/
theorem claim_C1 (pyHash : String → ℤ) (supply : Nat → String)
    (inputs : Nat → RecInput) (count : ℤ) :
    (8 ≤ count → ∃ recs, generateChunk pyHash supply inputs count = some recs ∧
      recs.length = count.toNat) ∧
    (1 ≤ count → count ≤ 7 → generateChunk pyHash supply inputs count = none) :=
  ⟨fun h => generateChunk_big pyHash supply inputs h,
   fun h1 h7 => generateChunk_small pyHash supply inputs h1 h7⟩

/-- C2: the claim states non-positive counts fail with an InvalidArgument
error and that positive counts have no error conditions; on the code,
counts `≤ 0` succeed with an empty batch (no validation exists), counts
`1..7` are the real error cases (IndexError from the empty user pool), and
counts `≥ 8` succeed. -/
theorem claim_C2 (pyHash : String → ℤ) (supply : Nat → String)
    (inputs : Nat → RecInput) (count : ℤ) :
    (count ≤ 0 → generateChunk pyHash supply inputs count = some []) ∧
    (1 ≤ count → count ≤ 7 → generateChunk pyHash supply inputs count = none) ∧
    (8 ≤ count → ∃ recs, generateChunk pyHash supply inputs count = some recs) :=
  ⟨fun h => generateChunk_nonpos pyHash supply inputs h,
   fun h1 h7 => generateChunk_small pyHash supply inputs h1 h7,
   fun h => (generateChunk_big pyHash supply inputs h).imp fun _ hp => hp.1⟩

/-- C3: the claim states the per-call pool has `max(1, N // 8)` members; on
the code it has exactly `N // 8` members (no lower bound of one, which is
why small counts fail).  The second conjunct — every generated record's
user identifier comes from that call's own pool — does hold. -/
theorem claim_C3 (pyHash : String → ℤ) (supply : Nat → String)
    (inputs : Nat → RecInput) (count : ℤ) :
    (userPool supply count).length = (Int.fdiv count 8).toNat ∧
    (∀ r ∈ chunkRecords pyHash supply inputs count,
      r.user_id ∈ userPool supply count) := by
  refine ⟨userPool_length supply count, fun r hr => ?_⟩
  obtain ⟨inp, hmk⟩ := chunkRecords_mem pyHash supply inputs count hr
  exact makeRecord_user_mem hmk

lemma makeRecord_eq_recordOf {pyHash : String → ℤ} {users : List String}
    {inp : RecInput} {r : Record} (h : makeRecord pyHash users inp = some r) :
    ∃ uid, r = recordOf pyHash uid inp := by
  unfold makeRecord at h
  cases hc : pyChoice users inp.userIdx with
  | none => rw [hc] at h; cases h
  | some uid => rw [hc] at h; exact ⟨uid, (Option.some.inj h).symm⟩

lemma recordOf_risk_score (pyHash : String → ℤ) (uid : String) (inp : RecInput) :
    (recordOf pyHash uid inp).risk_score =
      riskScore
        (computeAmount (pyChoiceD MERCHANTS ("amazon", "online") inp.merchantIdx).2
          inp.amountT inp.recapGate inp.recapT)
        (computeHour inp.hourGate inp.hourDay inp.hourAny)
        (pyChoiceD MERCHANTS ("amazon", "online") inp.merchantIdx).2
        (choosePayment inp.payT) (chooseStatus inp.statusT)
        (is_private_ip (ipSelect inp)) (noiseDraw inp.noise) := rfl

lemma recordOf_is_fraud (pyHash : String → ℤ) (uid : String) (inp : RecInput) :
    (recordOf pyHash uid inp).is_fraud =
      isFraudFlag (recordOf pyHash uid inp).risk_score inp.fraudT := rfl

lemma riskScore_nonneg (amount : ℚ) (hour : Nat) (category payment status : String)
    (priv : Bool) (noise : ℤ) :
    0 ≤ riskScore amount hour category payment status priv noise :=
  le_max_left 0 _

lemma riskScore_le_100 (amount : ℚ) (hour : Nat) (category payment status : String)
    (priv : Bool) (noise : ℤ) :
    riskScore amount hour category payment status priv noise ≤ 100 :=
  max_le (by norm_num) (min_le_left _ _)

lemma isFraudFlag_true {risk : ℤ} {draw : ℚ} (h : isFraudFlag risk draw = true) :
    70 < risk ∧ draw < 3/10 := by
  simpa [isFraudFlag] using h

/-- C5: the risk score of every generated record lies in `[0, 100]`; the
clamp `max(0, min(100, fraud_score))` guarantees the bounds for every
possible value of the additive noise term (quantified over all of `ℤ`, not
just the drawn range `[-5, 10]`). -/
theorem claim_C5 :
    (∀ (amount : ℚ) (hour : Nat) (category payment status : String) (priv : Bool)
      (noise : ℤ), 0 ≤ riskScore amount hour category payment status priv noise ∧
        riskScore amount hour category payment status priv noise ≤ 100) ∧
    (∀ (pyHash : String → ℤ) (supply : Nat → String) (inputs : Nat → RecInput)
      (count : ℤ), ∀ r ∈ chunkRecords pyHash supply inputs count,
        0 ≤ r.risk_score ∧ r.risk_score ≤ 100) := by
  constructor
  · intro amount hour category payment status priv noise
    exact ⟨riskScore_nonneg _ _ _ _ _ _ _, riskScore_le_100 _ _ _ _ _ _ _⟩
  · intro pyHash supply inputs count r hr
    obtain ⟨inp, hmk⟩ := chunkRecords_mem pyHash supply inputs count hr
    obtain ⟨uid, rfl⟩ := makeRecord_eq_recordOf hmk
    rw [recordOf_risk_score]
    exact ⟨riskScore_nonneg _ _ _ _ _ _ _, riskScore_le_100 _ _ _ _ _ _ _⟩

lemma ite_add_shift (c : Prop) [Decidable c] (s k : ℤ) :
    (if c then s + k else s) = s + (if c then k else 0) := by
  split_ifs <;> simp

lemma fraudScore_eq_sum (amount : ℚ) (hour : Nat) (category payment status : String)
    (priv : Bool) (noise : ℤ) :
    fraudScore amount hour category payment status priv noise =
      (if 500 < amount then (30 : ℤ) else 0)
      + (if 1000 < amount then 20 else 0)
      + (if hour < 6 ∨ 23 < hour then 15 else 0)
      + (if category = "online" then 10 else 0)
      + (if payment = "digital_wallet" then 5 else 0)
      + (if status = "failed" then 25 else 0)
      + (if priv then 20 else 0)
      + noise := by
  simp only [fraudScore, ite_add_shift, zero_add]

/-- C7: the risk score equals the clamp to `[0, 100]` of the spec's single
additive sum — `+30` for amount over 500, a further `+20` over 1000, `+15`
for hour below 6 or above 23, `+10` for an online merchant, `+5` for a
digital wallet, `+25` for a failed status, `+20` for a private address,
plus the noise term — both as pure functions and for every generated
record's stored score. -/
theorem claim_C7 :
    (∀ (amount : ℚ) (hour : Nat) (category payment status : String) (priv : Bool)
      (noise : ℤ), riskScore amount hour category payment status priv noise =
        riskScoreSpec amount hour category payment status priv noise) ∧
    (∀ (pyHash : String → ℤ) (users : List String) (inp : RecInput) (r : Record),
      makeRecord pyHash users inp = some r →
      r.risk_score = riskScoreSpec
        (computeAmount (pyChoiceD MERCHANTS ("amazon", "online") inp.merchantIdx).2
          inp.amountT inp.recapGate inp.recapT)
        (computeHour inp.hourGate inp.hourDay inp.hourAny)
        (pyChoiceD MERCHANTS ("amazon", "online") inp.merchantIdx).2
        (choosePayment inp.payT) (chooseStatus inp.statusT)
        (is_private_ip (ipSelect inp)) (noiseDraw inp.noise)) := by
  have key : ∀ (amount : ℚ) (hour : Nat) (category payment status : String)
      (priv : Bool) (noise : ℤ),
      riskScore amount hour category payment status priv noise =
        riskScoreSpec amount hour category payment status priv noise := by
    intro amount hour category payment status priv noise
    unfold riskScore riskScoreSpec
    rw [fraudScore_eq_sum]
  refine ⟨key, fun pyHash users inp r hmk => ?_⟩
  obtain ⟨uid, rfl⟩ := makeRecord_eq_recordOf hmk
  rw [recordOf_risk_score, key]

lemma takeWhile_group (g : List Char) :
    ∀ l : List Char, (∀ c ∈ g, c ≠ '.') → '.' ∈ l →
      (listStarts l (g ++ ['.']) = true ↔ l.takeWhile (fun c => c != '.') = g) := by
  induction g with
  | nil =>
    intro l _ hdot
    cases l with
    | nil => simp at hdot
    | cons c t =>
      by_cases hc : c = '.'
      · subst hc
        simp [listStarts, List.takeWhile_cons]
      · simp [listStarts, List.takeWhile_cons, hc]
  | cons a g ih =>
    intro l hg hdot
    have ha : a ≠ '.' := hg a (List.mem_cons_self a g)
    cases l with
    | nil => simp at hdot
    | cons c t =>
      by_cases hc : c = '.'
      · subst hc
        simp [listStarts, List.takeWhile_cons, Ne.symm ha]
      · have hdt : '.' ∈ t := by
          rcases List.mem_cons.1 hdot with h | h
          · exact absurd h.symm hc
          · exact h
        have ihc := ih t (fun x hx => hg x (List.mem_cons_of_mem _ hx)) hdt
        by_cases hca : c = a
        · subst hca
          simp [listStarts, List.takeWhile_cons, hc, ihc]
        · simp [listStarts, List.takeWhile_cons, hc, hca]

/-- C9: the private-address flag computed with
`ip_address.startswith(('10.', '192.', '172.'))` is true exactly when the
address string starts with one of those three prefixes, i.e. — for any
address containing a dot — when its leading octet group (the characters
before the first dot) is `10`, `192` or `172`. -/
theorem claim_C9 (ip : String) (hdot : '.' ∈ ip.data) :
    is_private_ip ip = true ↔
      ip.data.takeWhile (fun c => c != '.') ∈
        [("10").data, ("192").data, ("172").data] := by
  have e1 : ("10.").data = ['1', '0'] ++ ['.'] := rfl
  have e2 : ("192.").data = ['1', '9', '2'] ++ ['.'] := rfl
  have e3 : ("172.").data = ['1', '7', '2'] ++ ['.'] := rfl
  have d1 : ("10").data = ['1', '0'] := rfl
  have d2 : ("192").data = ['1', '9', '2'] := rfl
  have d3 : ("172").data = ['1', '7', '2'] := rfl
  simp only [is_private_ip, pyStartswith, Bool.or_eq_true, e1, e2, e3, d1, d2, d3,
    List.mem_cons, List.not_mem_nil, or_false, List.mem_singleton]
  have t1 := takeWhile_group ['1', '0'] ip.data (by decide) hdot
  have t2 := takeWhile_group ['1', '9', '2'] ip.data (by decide) hdot
  have t3 := takeWhile_group ['1', '7', '2'] ip.data (by decide) hdot
  simp only [List.cons_append, List.nil_append] at t1 t2 t3
  rw [t1, t2, t3, or_assoc]

lemma uniformDraw_le {a b : ℚ} (hab : a ≤ b) {t : ℚ} (_ht0 : 0 ≤ t) (ht1 : t < 1) :
    uniformDraw a b t ≤ b := by
  unfold uniformDraw
  nlinarith

lemma roundHalfEven_le {x : ℚ} {m : ℤ} (h : x ≤ (m : ℚ)) : roundHalfEven x ≤ m := by
  have hf : ⌊x⌋ ≤ m := by
    have := Int.floor_le_floor h
    rwa [Int.floor_intCast] at this
  have hstep : ¬(x - (⌊x⌋ : ℚ) < 1/2) → ⌊x⌋ + 1 ≤ m := by
    intro h1
    push_neg at h1
    have hxm : x ≠ (m : ℚ) := by
      intro he
      rw [he, Int.floor_intCast] at h1
      norm_num at h1
    have hxlt : x < (m : ℚ) := lt_of_le_of_ne h hxm
    have : ⌊x⌋ < m := Int.floor_lt.2 hxlt
    omega
  simp only [roundHalfEven]
  split_ifs with h1 h2 h3
  · exact hf
  · exact hstep h1
  · exact hf
  · exact hstep h1

lemma round2_le {q : ℚ} {m : ℤ} (h : q ≤ (m : ℚ)) : round2 q ≤ (m : ℚ) := by
  have h100 : q * 100 ≤ ((m * 100 : ℤ) : ℚ) := by push_cast; linarith
  have hr : roundHalfEven (q * 100) ≤ m * 100 := roundHalfEven_le h100
  have hc : ((roundHalfEven (q * 100) : ℤ) : ℚ) ≤ ((m * 100 : ℤ) : ℚ) :=
    Int.cast_le.2 hr
  unfold round2
  push_cast at hc ⊢
  linarith

lemma amountRange_facts (category : String) :
    (amountRange category).1 ≤ (amountRange category).2 ∧
      (amountRange category).2 ≤ 1000 ∧ (amountRange category).1 ≤ 300 := by
  unfold amountRange
  split_ifs <;> norm_num

lemma computeAmount_le_1000 (category : String) {t1 : ℚ} (gate : ℚ) {t2 : ℚ}
    (h10 : 0 ≤ t1) (h11 : t1 < 1) (h20 : 0 ≤ t2) (h21 : t2 < 1) :
    computeAmount category t1 gate t2 ≤ 1000 := by
  obtain ⟨hab, hb, ha⟩ := amountRange_facts category
  simp only [computeAmount]
  split_ifs with h
  · have hd : uniformDraw (amountRange category).1 300 t2 ≤ ((300 : ℤ) : ℚ) := by
      push_cast
      exact uniformDraw_le ha h20 h21
    have h2 := round2_le hd
    push_cast at h2
    linarith
  · have hd : uniformDraw (amountRange category).1 (amountRange category).2 t1 ≤
        ((1000 : ℤ) : ℚ) := by
      push_cast
      exact le_trans (uniformDraw_le hab h10 h11) hb
    have h2 := round2_le hd
    push_cast at h2
    linarith

/-- C10: for every merchant category (the default range included) and all
random draws in `[0, 1)`, the generated amount is at most 1000, so the
`amount > 1000: +20` branch of the risk score never fires: the source's
scoring chain agrees everywhere reachable with the same chain with that
step removed. -/
theorem claim_C10 (category : String) (t1 gate t2 : ℚ)
    (h10 : 0 ≤ t1) (h11 : t1 < 1) (h20 : 0 ≤ t2) (h21 : t2 < 1) :
    computeAmount category t1 gate t2 ≤ 1000 ∧
    ∀ (hour : Nat) (payment status : String) (priv : Bool) (noise : ℤ),
      fraudScore (computeAmount category t1 gate t2) hour category payment status
          priv noise =
        fraudScoreLow (computeAmount category t1 gate t2) hour category payment
          status priv noise := by
  have hle := computeAmount_le_1000 category gate h10 h11 h20 h21
  refine ⟨hle, fun hour payment status priv noise => ?_⟩
  have hn : ¬(1000 < computeAmount category t1 gate t2) := not_lt.2 hle
  simp only [fraudScore, fraudScoreLow, if_neg hn]

lemma pyRangeAux_stop {start stop step : Nat} (h : stop ≤ start) (fuel : Nat) :
    pyRangeAux fuel start stop step = [] := by
  cases fuel with
  | zero => rfl
  | succ n =>
    simp only [pyRangeAux]
    rw [if_neg]
    omega

lemma pyRangeAux_sum (total chunk : Nat) (hc : 0 < chunk) :
    ∀ (fuel start : Nat), total - start ≤ fuel →
      ((pyRangeAux fuel start total chunk).map
        (fun s => min chunk (total - s))).sum = total - start := by
  intro fuel
  induction fuel with
  | zero =>
    intro start h0
    have : pyRangeAux 0 start total chunk = [] := rfl
    rw [this]
    simp
    omega
  | succ n ih =>
    intro start hle
    by_cases hs : start < total
    · simp only [pyRangeAux, if_pos (And.intro hc hs), List.map_cons, List.sum_cons]
      rw [ih (start + chunk) (by omega)]
      omega
    · simp only [pyRangeAux]
      rw [if_neg (by omega)]
      simp
      omega

lemma pyRangeAux_mem {total chunk : Nat} :
    ∀ (fuel start s : Nat), s ∈ pyRangeAux fuel start total chunk →
      start ≤ s ∧ s < total ∧ chunk ∣ (s - start) := by
  intro fuel
  induction fuel with
  | zero => intro start s h; cases h
  | succ n ih =>
    intro start s h
    simp only [pyRangeAux] at h
    split_ifs at h with hcond
    · rcases List.mem_cons.1 h with rfl | hmem
      · exact ⟨le_refl s, hcond.2, by simp⟩
      · obtain ⟨h1, h2, k, hk⟩ := ih (start + chunk) s hmem
        exact ⟨by omega, h2, k + 1, by rw [Nat.mul_succ]; omega⟩
    · cases h

lemma pyRange_single {total chunk : Nat} (h0 : 0 < total) (hc : total ≤ chunk) :
    pyRange 0 total chunk = [0] := by
  obtain ⟨n, rfl⟩ : ∃ n, total = n + 1 := ⟨total - 1, by omega⟩
  simp only [pyRange, pyRangeAux]
  rw [if_pos (by omega)]
  rw [pyRangeAux_stop (show n + 1 ≤ 0 + chunk by omega) n]

/-- C8: the chunked writer walks start offsets `0, chunk, 2*chunk, ...`
below `total` and requests `min(chunk, total - start)` records per batch
(the per-batch requests sum to `total`), and streaming 120000 records with
chunk 50000 emits exactly one header line followed by the data lines of
three batches of 50000, 50000 and 20000 records — as the claim states.
The claim's final clause, that `chunk ≥ total` always yields one batch and
one header, holds only for `total ≥ 8`: for `1 ≤ total ≤ 7` the single
chunk call raises (empty user pool) before `to_csv` runs, so the stream
aborts with no header and no batch, and for `total = 0` the loop body
never runs and nothing at all is written. -/
theorem claim_C8 :
    (∀ total chunk : Nat, 0 < chunk →
      ((pyRange 0 total chunk).map (fun s => min chunk (total - s))).sum = total ∧
      ∀ s ∈ pyRange 0 total chunk, s < total ∧ chunk ∣ s) ∧
    (∀ (pyHash : String → ℤ) (supply : Nat → Nat → String)
      (inputs : Nat → Nat → RecInput), ∃ b1 b2 b3 : List Record,
        b1.length = 50000 ∧ b2.length = 50000 ∧ b3.length = 20000 ∧
        streamLines pyHash supply inputs 120000 50000 =
          some (headerLine ::
            (b1.map csvLine ++ (b2.map csvLine ++ b3.map csvLine)))) ∧
    (∀ (pyHash : String → ℤ) (supply : Nat → Nat → String)
      (inputs : Nat → Nat → RecInput) (total chunk : Nat),
      8 ≤ total → total ≤ chunk → ∃ b : List Record, b.length = total ∧
        streamLines pyHash supply inputs total chunk =
          some (headerLine :: b.map csvLine)) ∧
    (∀ (pyHash : String → ℤ) (supply : Nat → Nat → String)
      (inputs : Nat → Nat → RecInput) (total chunk : Nat),
      1 ≤ total → total ≤ 7 → total ≤ chunk →
        streamLines pyHash supply inputs total chunk = none) ∧
    (∀ (pyHash : String → ℤ) (supply : Nat → Nat → String)
      (inputs : Nat → Nat → RecInput) (chunk : Nat),
      streamLines pyHash supply inputs 0 chunk = some []) := by
  refine ⟨?_, ?_, ?_, ?_, ?_⟩
  · intro total chunk hc
    constructor
    · have := pyRangeAux_sum total chunk hc total 0 (by omega)
      simpa [pyRange] using this
    · intro s hs
      obtain ⟨_, h2, hdvd⟩ := pyRangeAux_mem total 0 s hs
      exact ⟨h2, by simpa using hdvd⟩
  · intro pyHash supply inputs
    have hr : pyRange 0 120000 50000 = [0, 50000, 100000] := by decide
    have c1 : ((min 50000 (120000 - 0) : Nat) : ℤ) = 50000 := by norm_num
    have c2 : ((min 50000 (120000 - 50000) : Nat) : ℤ) = 50000 := by norm_num
    have c3 : ((min 50000 (120000 - 100000) : Nat) : ℤ) = 20000 := by norm_num
    obtain ⟨b1, h1, l1⟩ := generateChunk_big pyHash (supply 0) (inputs 0)
      (show (8 : ℤ) ≤ 50000 by norm_num)
    obtain ⟨b2, h2, l2⟩ := generateChunk_big pyHash (supply 1) (inputs 1)
      (show (8 : ℤ) ≤ 50000 by norm_num)
    obtain ⟨b3, h3, l3⟩ := generateChunk_big pyHash (supply 2) (inputs 2)
      (show (8 : ℤ) ≤ 20000 by norm_num)
    refine ⟨b1, b2, b3, by simpa using l1, by simpa using l2, by simpa using l3, ?_⟩
    unfold streamLines
    rw [hr]
    simp only [writeLoop, c1, c2, c3, h1, h2, h3, batchLines]
    simp
  · intro pyHash supply inputs total chunk h8 hcle
    have hr : pyRange 0 total chunk = [0] := pyRange_single (by omega) hcle
    have hmin : ((min chunk (total - 0) : Nat) : ℤ) = (total : ℤ) := by
      have : min chunk (total - 0) = total := by omega
      rw [this]
    obtain ⟨b, hb, lb⟩ := generateChunk_big pyHash (supply 0) (inputs 0)
      (show (8 : ℤ) ≤ (total : ℤ) by exact_mod_cast h8)
    refine ⟨b, by simpa using lb, ?_⟩
    unfold streamLines
    rw [hr]
    simp only [writeLoop, hmin, hb, batchLines]
    simp
  · intro pyHash supply inputs total chunk h1 h7 hcle
    have hr : pyRange 0 total chunk = [0] := pyRange_single (by omega) hcle
    have hmin : ((min chunk (total - 0) : Nat) : ℤ) = (total : ℤ) := by
      have : min chunk (total - 0) = total := by omega
      rw [this]
    have hg : generateChunk pyHash (supply 0) (inputs 0) (total : ℤ) = none :=
      generateChunk_small pyHash (supply 0) (inputs 0)
        (show (1 : ℤ) ≤ (total : ℤ) by exact_mod_cast h1)
        (show (total : ℤ) ≤ 7 by exact_mod_cast h7)
    unfold streamLines
    rw [hr]
    simp only [writeLoop, hmin, hg]
  · intro pyHash supply inputs chunk
    rfl

section ConcreteEvaluation

attribute [local semireducible] Rat.add Rat.mul Rat.sub Rat.inv Rat.ofScientific

/-- C1 witness: at count 8 the generator returns exactly 8 records, and at
count 3 it fails. -/
theorem claim_C1_witness :
    ((8 : ℤ) ≤ 8 ∧ ∃ recs, generateChunk hash0 supply0 inputs0 8 = some recs ∧
      recs.length = (8 : ℤ).toNat) ∧
    ((1 : ℤ) ≤ 3 ∧ (3 : ℤ) ≤ 7 ∧ generateChunk hash0 supply0 inputs0 3 = none) :=
  ⟨⟨by norm_num, (claim_C1 hash0 supply0 inputs0 8).1 (by norm_num)⟩,
   ⟨by norm_num, by norm_num,
    (claim_C1 hash0 supply0 inputs0 3).2 (by norm_num) (by norm_num)⟩⟩

/-- C1 counterexample: count 1 is valid per the claim (`N ≥ 1`), yet the
generator raises (`none`) instead of returning one record. -/
theorem claim_C1_counterexample : generateChunk hash0 supply0 inputs0 1 = none := by
  decide

/-- C2 witness: count 0 and count -5 return an empty batch, count 5 fails,
count 8 succeeds. -/
theorem claim_C2_witness :
    ((0 : ℤ) ≤ 0 ∧ generateChunk hash0 supply0 inputs0 0 = some []) ∧
    ((-5 : ℤ) ≤ 0 ∧ generateChunk hash0 supply0 inputs0 (-5) = some []) ∧
    ((1 : ℤ) ≤ 5 ∧ (5 : ℤ) ≤ 7 ∧ generateChunk hash0 supply0 inputs0 5 = none) ∧
    ((8 : ℤ) ≤ 8 ∧ ∃ recs, generateChunk hash0 supply0 inputs0 8 = some recs) :=
  ⟨⟨by norm_num, (claim_C2 hash0 supply0 inputs0 0).1 (by norm_num)⟩,
   ⟨by norm_num, (claim_C2 hash0 supply0 inputs0 (-5)).1 (by norm_num)⟩,
   ⟨by norm_num, by norm_num,
    (claim_C2 hash0 supply0 inputs0 5).2.1 (by norm_num) (by norm_num)⟩,
   ⟨by norm_num, (claim_C2 hash0 supply0 inputs0 8).2.2 (by norm_num)⟩⟩

/-- C2 counterexample: invoking the generator with count 0 does not fail
with any error: it returns an empty batch. -/
theorem claim_C2_counterexample : generateChunk hash0 supply0 inputs0 0 = some [] := by
  decide

/-- C3 witness: at count 8 the pool has one member, and the first generated
record's user identifier belongs to the pool. -/
theorem claim_C3_witness :
    (userPool supply0 8).length = (Int.fdiv 8 8).toNat ∧
    ((chunkRecords hash0 supply0 inputs0 8).headI ∈
        chunkRecords hash0 supply0 inputs0 8 ∧
      (chunkRecords hash0 supply0 inputs0 8).headI.user_id ∈ userPool supply0 8) :=
  ⟨(claim_C3 hash0 supply0 inputs0 8).1,
   by decide,
   (claim_C3 hash0 supply0 inputs0 8).2 _ (by decide)⟩

/-- C3 counterexample: at count 4 the pool has `4 // 8 = 0` members, not
`max(1, 4 // 8) = 1` as the claim states. -/
theorem claim_C3_counterexample :
    (userPool supply0 4).length ≠ max 1 (Int.fdiv 4 8).toNat := by
  decide

/-- C5 witness: the clamp bounds instantiated at an adversarial noise value
of one million, and at the first record of a concrete generated chunk. -/
theorem claim_C5_witness :
    (0 ≤ riskScore 15 8 ("online") ("credit_card") ("completed") true 1000000 ∧
      riskScore 15 8 ("online") ("credit_card") ("completed") true 1000000 ≤ 100) ∧
    ((chunkRecords hash0 supply0 inputs0 8).headI ∈
        chunkRecords hash0 supply0 inputs0 8 ∧
      0 ≤ (chunkRecords hash0 supply0 inputs0 8).headI.risk_score ∧
        (chunkRecords hash0 supply0 inputs0 8).headI.risk_score ≤ 100) :=
  ⟨claim_C5.1 15 8 ("online") ("credit_card") ("completed") true 1000000,
   by decide,
   claim_C5.2 hash0 supply0 inputs0 8 _ (by decide)⟩

/-- C6: the fraud flag is true only if the risk score strictly exceeds 70
and the independent uniform draw is below 0.3; and a risk score above 70
alone does not force the flag (a concrete record has risk 85 and flag
false). -/
theorem claim_C6 :
    (∀ (risk : ℤ) (draw : ℚ), isFraudFlag risk draw = true →
      70 < risk ∧ draw < 3/10) ∧
    (∀ (pyHash : String → ℤ) (supply : Nat → String) (inputs : Nat → RecInput)
      (count : ℤ), ∀ r ∈ chunkRecords pyHash supply inputs count,
        r.is_fraud = true → 70 < r.risk_score) ∧
    (70 < ((makeRecord hash0 ["u"] inputHighRiskNoFraud).getD default).risk_score ∧
      ((makeRecord hash0 ["u"] inputHighRiskNoFraud).getD default).is_fraud = false) := by
  refine ⟨fun risk draw h => isFraudFlag_true h, ?_, by decide, by decide⟩
  intro pyHash supply inputs count r hr hf
  obtain ⟨inp, hmk⟩ := chunkRecords_mem pyHash supply inputs count hr
  obtain ⟨uid, rfl⟩ := makeRecord_eq_recordOf hmk
  rw [recordOf_is_fraud] at hf
  exact (isFraudFlag_true hf).1

/-- C6 witness: the only-if direction instantiated at a concrete flag, and
the record-level implication at the first record of a chunk whose records
do carry the fraud flag. -/
theorem claim_C6_witness :
    (isFraudFlag 80 (1/5) = true ∧ 70 < (80 : ℤ) ∧ (1/5 : ℚ) < 3/10) ∧
    ((chunkRecords hash0 supply0 inputsF 8).headI ∈
        chunkRecords hash0 supply0 inputsF 8 ∧
      (chunkRecords hash0 supply0 inputsF 8).headI.is_fraud = true ∧
      70 < (chunkRecords hash0 supply0 inputsF 8).headI.risk_score) :=
  ⟨⟨by decide, claim_C6.1 80 (1/5) (by decide)⟩,
   by decide, by decide,
   claim_C6.2.1 hash0 supply0 inputsF 8 _ (by decide) (by decide)⟩

/-- C7 witness: the record-level equality instantiated at a concrete
successful generation. -/
theorem claim_C7_witness :
    makeRecord hash0 ["u"] input0 =
      some ((makeRecord hash0 ["u"] input0).getD default) ∧
    ((makeRecord hash0 ["u"] input0).getD default).risk_score = riskScoreSpec
      (computeAmount (pyChoiceD MERCHANTS ("amazon", "online") input0.merchantIdx).2
        input0.amountT input0.recapGate input0.recapT)
      (computeHour input0.hourGate input0.hourDay input0.hourAny)
      (pyChoiceD MERCHANTS ("amazon", "online") input0.merchantIdx).2
      (choosePayment input0.payT) (chooseStatus input0.statusT)
      (is_private_ip (ipSelect input0)) (noiseDraw input0.noise) :=
  ⟨by decide, claim_C7.2 hash0 ["u"] input0 _ (by decide)⟩

/-- C9 witness: the equivalence instantiated at the concrete address
`10.0.0.1` (leading group `10`, flag true) and at `100.0.0.1` (leading
group `100`, flag false). -/
theorem claim_C9_witness :
    (('.' ∈ ("10.0.0.1" : String).data) ∧
      (is_private_ip ("10.0.0.1") = true ↔
        ("10.0.0.1" : String).data.takeWhile (fun c => c != '.') ∈
          [("10").data, ("192").data, ("172").data]) ∧
      is_private_ip ("10.0.0.1") = true) ∧
    (('.' ∈ ("100.0.0.1" : String).data) ∧
      (is_private_ip ("100.0.0.1") = true ↔
        ("100.0.0.1" : String).data.takeWhile (fun c => c != '.') ∈
          [("10").data, ("192").data, ("172").data]) ∧
      is_private_ip ("100.0.0.1") = false) :=
  ⟨⟨by decide, claim_C9 ("10.0.0.1") (by decide), by decide⟩,
   ⟨by decide, claim_C9 ("100.0.0.1") (by decide), by decide⟩⟩

/-- C10 witness: the amount bound and the dead-branch agreement
instantiated for the `financial` category (the widest range) at a draw
close to its upper end. -/
theorem claim_C10_witness :
    ((0 : ℚ) ≤ 99/100 ∧ (99/100 : ℚ) < 1 ∧ (0 : ℚ) ≤ 0 ∧ (0 : ℚ) < 1) ∧
    computeAmount ("financial") (99/100) 1 0 ≤ 1000 ∧
    fraudScore (computeAmount ("financial") (99/100) 1 0) 0 ("financial")
        ("credit_card") ("completed") false 0 =
      fraudScoreLow (computeAmount ("financial") (99/100) 1 0) 0 ("financial")
        ("credit_card") ("completed") false 0 :=
  ⟨⟨by norm_num, by norm_num, le_refl 0, by norm_num⟩,
   (claim_C10 ("financial") (99/100) 1 0 (by norm_num) (by norm_num) (by norm_num)
     (by norm_num)).1,
   (claim_C10 ("financial") (99/100) 1 0 (by norm_num) (by norm_num) (by norm_num)
     (by norm_num)).2 0 ("credit_card") ("completed") false 0⟩

/-- C8 counterexample: the claim's `chunk_size ≥ total` clause promises one
batch and one header for every total, but streaming total 5 with chunk 50
aborts with nothing written (the single chunk call raises on its empty
user pool), and streaming total 0 writes no lines at all. -/
theorem claim_C8_counterexample :
    streamLines hash0 supply2 inputs2 5 50 = none ∧
    streamLines hash0 supply2 inputs2 0 50 = some [] :=
  ⟨by decide, by decide⟩

/-- C8 witness: the batch-size sum instantiated at total 7 with chunk 3
(batches 3 + 3 + 1), the single-batch case instantiated at total 8 with
chunk 50, the aborting case at total 5 with chunk 50, and the empty case
at total 0. -/
theorem claim_C8_witness :
    (0 < 3 ∧
      ((pyRange 0 7 3).map (fun s => min 3 (7 - s))).sum = 7 ∧
      ∀ s ∈ pyRange 0 7 3, s < 7 ∧ 3 ∣ s) ∧
    (8 ≤ 8 ∧ 8 ≤ 50 ∧ ∃ b : List Record, b.length = 8 ∧
      streamLines hash0 supply2 inputs2 8 50 =
        some (headerLine :: b.map csvLine)) ∧
    (1 ≤ 5 ∧ 5 ≤ 7 ∧ 5 ≤ 50 ∧
      streamLines hash1 supply2 inputs2 5 50 = none) ∧
    streamLines hash1 supply2 inputs2 0 50 = some [] :=
  ⟨⟨by norm_num, (claim_C8.1 7 3 (by norm_num)).1, (claim_C8.1 7 3 (by norm_num)).2⟩,
   ⟨by norm_num, by norm_num,
    claim_C8.2.2.1 hash0 supply2 inputs2 8 50 (by norm_num) (by norm_num)⟩,
   ⟨by norm_num, by norm_num, by norm_num,
    claim_C8.2.2.2.1 hash1 supply2 inputs2 5 50 (by norm_num) (by norm_num) (by norm_num)⟩,
   claim_C8.2.2.2.2 hash1 supply2 inputs2 50⟩

end ConcreteEvaluation

end FraudGen
